import Mathlib

/-!
Verification of the HTTP-helper layer of the movies bot (src/bot.py).

The file embeds, as executable Lean definitions, the data flow of the
module-level HTTP helpers of src/bot.py:

* the lazily created shared client (lines 81-87),
* the single GET / raise_for_status / json() fetch pattern shared by every
  helper (e.g. lines 95-97 of omdb_search),
* omdb_search (92-98), omdb_by_id (100-105), trakt_calendar (110-122),
  watchmode_search_by_imdb (127-134), watchmode_sources_by_imdb (136-153),
  watchmode_sources_list (155-160) and
  watchmode_titles_by_source_name (162-203).

Network effects are made explicit: each helper receives the response(s) the
environment would hand to its GET call(s), and returns, next to its result,
the list of requests it issued (so attempt counts are observable) and the
shared-client state after the call.  Python exceptions become an error sum,
Python truthiness is modelled by an explicit predicate.
-/

/-- JSON values as decoded by the HTTP layer (Python dicts as association
lists, numbers as integers; no claim depends on float payloads). -/
inductive Json : Type where
  | null : Json
  | bool (b : Bool) : Json
  | num (n : Int) : Json
  | str (s : String) : Json
  | arr (elems : List Json) : Json
  | obj (fields : List (String × Json)) : Json

/-- Body of an HTTP response: either text that decodes as JSON, or raw text
on which Response.json() raises a decode error. -/
inductive Body : Type where
  | raw (text : String) : Body
  | json (j : Json) : Body

/-- An HTTP response handed to one GET attempt. -/
structure Response : Type where
  status : Nat
  body : Body

/-- Python-level failures the helpers can raise: httpx.HTTPStatusError from
raise_for_status (carrying the offending response), a JSON decode error, and
the attribute/type errors raised when a decoded value has the wrong shape. -/
inductive PyError : Type where
  | httpStatus (resp : Response) : PyError
  | decodeError : PyError
  | attributeError : PyError
  | typeError : PyError

/-- The shared httpx.AsyncClient; the only configuration the source gives it
is the timeout (line 86: httpx.AsyncClient(timeout=20)). -/
structure HttpClient : Type where
  timeout : Nat
deriving DecidableEq

/-- One HTTP GET request as issued by a helper. -/
structure Request : Type where
  url : String
  params : List (String × String)
  headers : List (String × String)
  timeout : Nat

/-- Observable outcome of one helper call: its Python result or exception,
the shared-client state after the call, and the requests it issued. -/
structure FetchOut : Type where
  result : Except PyError Json
  clientAfter : Option HttpClient
  reqs : List Request

/-- Trace of the fetch pattern against the claims of the spec: how many HTTP
attempts were issued, the backoff delays slept between them, and the final
outcome. -/
structure FetchTrace : Type where
  attempts : Nat
  delays : List ℚ
  outcome : Except PyError Json

/-- Python truthiness of a decoded JSON value (None, False, 0, "", [], and
the empty dict are falsy). -/
def pyTruthy : Json → Bool
  | .null => false
  | .bool b => b
  | .num n => n != 0
  | .str s => s != ""
  | .arr elems => !elems.isEmpty
  | .obj fields => !fields.isEmpty

/-- Python `x or d`: the left value if truthy, else the default. -/
def pyOr (j d : Json) : Json := if pyTruthy j then j else d

/-- Python `j.get(k)`: defined on dicts (missing key gives None); on any
other value attribute lookup of .get raises AttributeError. -/
def dictGet : Json → String → Except PyError Json
  | .obj fields, k => .ok ((fields.lookup k).getD .null)
  | _, _ => .error .attributeError

/-- Total variant of dictGet used in statements: None on non-dicts. -/
def dictGetD (j : Json) (k : String) : Json :=
  match dictGet j k with
  | .ok v => v
  | .error _ => .null

/-- Python `j == s` for a string literal s: true exactly when j is that
string. -/
def Json.eqStr : Json → String → Bool
  | .str t, s => t == s
  | _, _ => false

/-- Membership test of line 147: s.get("type") in {"sub", "free", "rent",
"buy"}. -/
def wmTypeOk (j : Json) : Bool :=
  j.eqStr "sub" || j.eqStr "free" || j.eqStr "rent" || j.eqStr "buy"

/-- Projection of lines 148-152: keep only name, type and web_url. -/
def projSource (s : Json) : Json :=
  .obj [("name", dictGetD s "name"), ("type", dictGetD s "type"),
        ("web_url", dictGetD s "web_url")]

/-- Python str() as used in the f-string URL of line 143; container cases
are not modelled textually (no claim depends on the URL text). -/
def pyStr : Json → String
  | .num n => toString n
  | .str s => s
  | .bool b => if b then "True" else "False"
  | .null => "None"
  | .arr _ => ""
  | .obj _ => ""

/-- httpx success check used by raise_for_status: 2xx statuses. -/
def isSuccess (status : Nat) : Bool :=
  decide (200 ≤ status) && decide (status ≤ 299)

/-- The transient statuses named by the spec (429, 500, 502, 503, 504).
The source code of src/bot.py itself never consults this set. -/
def transientStatuses : List Nat := [429, 500, 502, 503, 504]

/-- Lines 95-97 pattern (shared verbatim by every helper): issue the GET,
raise_for_status, then decode the body as JSON. -/
def http_get_json (r : Response) : Except PyError Json :=
  if isSuccess r.status then
    match r.body with
    | .raw _ => .error .decodeError
    | .json j => .ok j
  else .error (.httpStatus r)

/-- The fetch operation of the spec's claims, as src/bot.py implements it:
a single attempt with no retry loop and no sleeps.  The first argument is
the response the environment hands to the one GET issued; rest is the
remainder of the environment's planned response sequence, which the code
never consumes. -/
def fetch_once (r : Response) (rest : List Response) : FetchTrace :=
  { attempts := 1, delays := [], outcome := http_get_json r }

/-- Lines 83-87: return the shared client, constructing it with timeout=20
on first use.  The state is the module global of line 81. -/
def client : Option HttpClient → HttpClient × Option HttpClient
  | none => ({ timeout := 20 }, some { timeout := 20 })
  | some c => (c, some c)

/-- Client states reachable in a process: the global starts as None (line
81) and is only ever written by client() (line 86). -/
inductive ReachableClient : Option HttpClient → Prop where
  | init : ReachableClient none
  | step (s : Option HttpClient) : ReachableClient s → ReachableClient (client s).2

/-- Line 74. -/
def OMDB : String := "https://www.omdbapi.com/"

/-- Lines 92-98: omdb_search. -/
def omdb_search (apikey q : String) (cs : Option HttpClient) (r : Response) :
    FetchOut :=
  let cp := client cs
  { clientAfter := cp.2,
    reqs := [{ url := OMDB,
               params := [("apikey", apikey), ("s", q), ("type", ""), ("r", "json")],
               headers := [], timeout := cp.1.timeout }],
    result :=
      match http_get_json r with
      | .error e => .error e
      | .ok j =>
        match dictGet (pyOr j (.obj [])) "Search" with
        | .error e => .error e
        | .ok v => .ok (pyOr v (.arr [])) }

/-- Lines 100-105: omdb_by_id. -/
def omdb_by_id (apikey imdb_id : String) (cs : Option HttpClient)
    (r : Response) : FetchOut :=
  let cp := client cs
  { clientAfter := cp.2,
    reqs := [{ url := OMDB,
               params := [("apikey", apikey), ("i", imdb_id), ("plot", "short"), ("r", "json")],
               headers := [], timeout := cp.1.timeout }],
    result :=
      match http_get_json r with
      | .error e => .error e
      | .ok j => .ok (pyOr j (.obj [])) }

/-- Lines 110-122: trakt_calendar; returns [] without any request when
TRAKT_CLIENT_ID is empty. -/
def trakt_calendar (traktClientId start : String) (days : Nat) (kind : String)
    (cs : Option HttpClient) (r : Response) : FetchOut :=
  if traktClientId = "" then { result := .ok (.arr []), clientAfter := cs, reqs := [] }
  else
    let cp := client cs
    { clientAfter := cp.2,
      reqs := [{ url := "https://api.trakt.tv/calendars/all/" ++ kind ++ "/" ++ start
                        ++ "/" ++ toString days,
                 params := [],
                 headers := [("trakt-api-key", traktClientId),
                             ("trakt-api-version", "2"),
                             ("Content-Type", "application/json")],
                 timeout := cp.1.timeout }],
      result := http_get_json r }

/-- Lines 127-134: watchmode_search_by_imdb; returns None (modelled as JSON
null) without any request when WATCHMODE_API_KEY is empty. -/
def watchmode_search_by_imdb (apiKey imdb_id : String) (cs : Option HttpClient)
    (r : Response) : FetchOut :=
  if apiKey = "" then { result := .ok .null, clientAfter := cs, reqs := [] }
  else
    let cp := client cs
    { clientAfter := cp.2,
      reqs := [{ url := "https://api.watchmode.com/v1/search/",
                 params := [("apiKey", apiKey), ("search_field", "imdb_id"),
                            ("search_value", imdb_id)],
                 headers := [], timeout := cp.1.timeout }],
      result :=
        match http_get_json r with
        | .error e => .error e
        | .ok j =>
          match dictGet (pyOr j (.obj [])) "title_results" with
          | .error e => .error e
          | .ok tr =>
            let res := pyOr tr (.arr [])
            if pyTruthy res then
              match res with
              | .arr (x :: _) => dictGet x "id"
              | _ => .error .typeError
            else .ok .null }

/-- Loop of lines 145-152: scan the decoded sources, keeping the projection
of those whose region matches and whose type is in the allowed set; a
non-dict element raises just as s.get would. -/
def sources_keep (region : String) : List Json → Except PyError (List Json)
  | [] => .ok []
  | s :: rest =>
    match dictGet s "region" with
    | .error e => .error e
    | .ok reg =>
      if reg.eqStr region then
        match dictGet s "type" with
        | .error e => .error e
        | .ok ty =>
          if wmTypeOk ty then
            match sources_keep region rest with
            | .error e => .error e
            | .ok ks => .ok (projSource s :: ks)
          else sources_keep region rest
      else sources_keep region rest

/-- Lines 145-153 applied to the decoded body: iterate r.json(), filter and
project, return keep[:12].  Iterating a non-list mirrors Python: an empty
dict or empty string iterates zero times, a non-empty dict or string yields
strings on which .get raises AttributeError, other scalars raise
TypeError. -/
def wm_filter_result (region : String) : Json → Except PyError Json
  | .arr xs =>
    match sources_keep region xs with
    | .error e => .error e
    | .ok keep => .ok (.arr (keep.take 12))
  | .obj [] => .ok (.arr [])
  | .obj (_ :: _) => .error .attributeError
  | .str s => if s = "" then .ok (.arr []) else .error .attributeError
  | _ => .error .typeError

/-- Lines 136-153: watchmode_sources_by_imdb.  searchResp feeds the nested
watchmode_search_by_imdb call, sourcesResp the sources GET. -/
def watchmode_sources_by_imdb (apiKey region imdb_id : String)
    (cs : Option HttpClient) (searchResp sourcesResp : Response) : FetchOut :=
  if apiKey = "" then { result := .ok (.arr []), clientAfter := cs, reqs := [] }
  else
    let s1 := watchmode_search_by_imdb apiKey imdb_id cs searchResp
    match s1.result with
    | .error e => { result := .error e, clientAfter := s1.clientAfter, reqs := s1.reqs }
    | .ok wmId =>
      if pyTruthy wmId then
        let cp := client s1.clientAfter
        { clientAfter := cp.2,
          reqs := s1.reqs ++
            [{ url := "https://api.watchmode.com/v1/title/" ++ pyStr wmId ++ "/sources/",
               params := [("apiKey", apiKey), ("regions", region)],
               headers := [], timeout := cp.1.timeout }],
          result :=
            match http_get_json sourcesResp with
            | .error e => .error e
            | .ok j => wm_filter_result region j }
      else { result := .ok (.arr []), clientAfter := s1.clientAfter, reqs := s1.reqs }

/-- Lines 155-160: watchmode_sources_list. -/
def watchmode_sources_list (apiKey : String) (cs : Option HttpClient)
    (r : Response) : FetchOut :=
  if apiKey = "" then { result := .ok (.arr []), clientAfter := cs, reqs := [] }
  else
    let cp := client cs
    { clientAfter := cp.2,
      reqs := [{ url := "https://api.watchmode.com/v1/sources/",
                 params := [("apiKey", apiKey)],
                 headers := [], timeout := cp.1.timeout }],
      result :=
        match http_get_json r with
        | .error e => .error e
        | .ok j => .ok (pyOr j (.arr [])) }

/-- Python `j.get(k, d)` with an explicit default, as in line 171. -/
def dictGetDefault : Json → String → Json → Except PyError Json
  | .obj fields, k, d => .ok ((fields.lookup k).getD d)
  | _, _, _ => .error .attributeError

/-- Loop of lines 169-174: scan the sources for the first whose lowercased
name equals the lowercased platform name and take its id; sid stays None
when nothing matches.  s.get("name", "") raises on a non-dict element, and
.lower() raises on a non-string name value. -/
def find_source_id (source_name : String) : List Json → Except PyError Json
  | [] => .ok .null
  | s :: rest =>
    match dictGetDefault s "name" (.str "") with
    | .error e => .error e
    | .ok v =>
      match v with
      | .str nm =>
        if nm.toLower == source_name.toLower then dictGet s "id"
        else find_source_id source_name rest
      | _ => .error .attributeError

/-- Lines 169-174 applied to the decoded sources value: iterate it as the
for-loop does (same non-list iteration behavior as wm_filter_result). -/
def wm_find_sid (source_name : String) : Json → Except PyError Json
  | .arr xs => find_source_id source_name xs
  | .obj [] => .ok .null
  | .obj (_ :: _) => .error .attributeError
  | .str s => if s = "" then .ok .null else .error .attributeError
  | _ => .error .typeError

/-- Lines 162-203: watchmode_titles_by_source_name.  sourcesResp feeds the
nested watchmode_sources_list call, titlesResp the first list-titles GET
(plural params) and titlesResp2 the fallback GET (singular params).  The
outer try catches only httpx.HTTPStatusError, so a decode or attribute
error of the first attempt propagates; the inner except catches every
exception and returns []. -/
def watchmode_titles_by_source_name (apiKey region source_name : String)
    (limit : Nat) (cs : Option HttpClient)
    (sourcesResp titlesResp titlesResp2 : Response) : FetchOut :=
  if apiKey = "" then { result := .ok (.arr []), clientAfter := cs, reqs := [] }
  else
    let s1 := watchmode_sources_list apiKey cs sourcesResp
    match s1.result with
    | .error e => { result := .error e, clientAfter := s1.clientAfter, reqs := s1.reqs }
    | .ok sources =>
      match wm_find_sid source_name sources with
      | .error e => { result := .error e, clientAfter := s1.clientAfter, reqs := s1.reqs }
      | .ok sid =>
        if pyTruthy sid then
          let cp := client s1.clientAfter
          let req1 : Request :=
            { url := "https://api.watchmode.com/v1/list-titles/",
              params := [("apiKey", apiKey), ("source_ids", pyStr sid),
                         ("regions", region), ("types", "movie,tv_series"),
                         ("sort_by", "popularity_desc"), ("limit", toString limit)],
              headers := [], timeout := cp.1.timeout }
          match http_get_json titlesResp with
          | .ok j =>
            { result :=
                match dictGet j "titles" with
                | .error e => .error e
                | .ok v => .ok (pyOr v (.arr [])),
              clientAfter := cp.2, reqs := s1.reqs ++ [req1] }
          | .error (.httpStatus resp1) =>
            let cp2 := client cp.2
            let req2 : Request :=
              { url := "https://api.watchmode.com/v1/list-titles/",
                params := [("apiKey", apiKey), ("source_id", pyStr sid),
                           ("region", region), ("types", "movie,tv_series"),
                           ("sort_by", "popularity_desc"), ("limit", toString limit)],
                headers := [], timeout := cp2.1.timeout }
            { clientAfter := cp2.2, reqs := s1.reqs ++ [req1, req2],
              result :=
                match http_get_json titlesResp2 with
                | .ok j2 =>
                  match dictGet j2 "titles" with
                  | .error _ => .ok (.arr [])
                  | .ok v => .ok (pyOr v (.arr []))
                | .error _ => .ok (.arr []) }
          | .error e =>
            { result := .error e, clientAfter := cp.2, reqs := s1.reqs ++ [req1] }
        else { result := .ok (.arr []), clientAfter := s1.clientAfter, reqs := s1.reqs }

/-- Requests all carry timeout 20 (binder-free form for concrete checks). -/
def timeoutsOk (reqs : List Request) : Bool :=
  reqs.all (fun rq => rq.timeout == 20)

/-- Sample success payload used by concrete scenarios. -/
def okJson : Json := .obj [("ok", .bool true)]

/-- Concrete 200 response with a valid JSON body. -/
def respOk : Response := { status := 200, body := .json okJson }

/-- Concrete 503 (transient-status) response. -/
def resp503 : Response := { status := 503, body := .raw "service unavailable" }

/-- Concrete 500 (transient-status) response. -/
def resp500 : Response := { status := 500, body := .raw "internal error" }

/-- Concrete 404 (non-transient error) response. -/
def resp404 : Response := { status := 404, body := .raw "not found" }

/-- Concrete 200 response whose body is not valid JSON. -/
def respBadJson : Response := { status := 200, body := .raw "<html>oops</html>" }

/-- Concrete Watchmode search response: a 200 whose title_results holds one
hit with id 345. -/
def wmSearchResp : Response :=
  { status := 200,
    body := .json (.obj [("title_results", .arr [.obj [("id", .num 345)]])]) }

/-- Concrete Watchmode source entry in region SA with type sub. -/
def wmSourceSA : Json :=
  .obj [("region", .str "SA"), ("type", .str "sub"),
        ("name", .str "Netflix"), ("web_url", .str "https://netflix.example/")]

/-- Concrete Watchmode source entry that the region filter must drop. -/
def wmSourceUS : Json :=
  .obj [("region", .str "US"), ("type", .str "sub"),
        ("name", .str "Hulu"), ("web_url", .str "https://hulu.example/")]

/-- Concrete Watchmode sources response listing both entries. -/
def wmSourcesResp : Response :=
  { status := 200, body := .json (.arr [wmSourceSA, wmSourceUS]) }

/-! ## Helper lemmas -/

theorem transient_not_success : ∀ n ∈ transientStatuses, isSuccess n = false := by
  decide

theorem http_get_json_ok_body {r : Response} {j : Json}
    (h : http_get_json r = .ok j) : r.body = .json j := by
  unfold http_get_json at h
  split at h
  · cases hb : r.body with
    | raw t => rw [hb] at h; simp at h
    | json j2 => rw [hb] at h; simp at h; rw [h]
  · simp at h

theorem client_stable (s : Option HttpClient) :
    client (client s).2 = ((client s).1, (client s).2) := by
  cases s <;> rfl

theorem reachable_client_timeout :
    ∀ s : Option HttpClient, ReachableClient s → (client s).1.timeout = 20 := by
  intro s h
  induction h with
  | init => rfl
  | step s _ ih =>
    cases s with
    | none => rfl
    | some c => exact ih

/-! ## Claims C1-C6: the fetch pattern -/

/-- C1 counterexample: with attempt budget N = 2 and response sequence
[503, 200-with-JSON] (first response transient, second a 200 with a JSON
body), the claim demands the decoded JSON after exactly 2 attempts, but the
fetch operation of src/bot.py issues exactly 1 attempt and raises on the
503: there is no retry loop. -/
theorem fetch_retry_counterexample_C1 :
    resp503.status ∈ transientStatuses ∧ respOk.status = 200 ∧
    respOk.body = .json okJson ∧
    (fetch_once resp503 [respOk]).attempts = 1 ∧
    ¬ ((fetch_once resp503 [respOk]).attempts = 2) ∧
    (fetch_once resp503 [respOk]).outcome = .error (.httpStatus resp503) := by
  refine ⟨by decide, rfl, rfl, rfl, by decide, rfl⟩

/-- C1 amended: the fetch operation never retries, so the claim holds only
for N = 1: when the first response is a 200 with a JSON body, the fetch
returns that response's decoded JSON and issues exactly one HTTP attempt
(the rest of the response sequence is never consumed). -/
theorem fetch_success_one_attempt_C1 (j : Json) (r : Response)
    (rest : List Response) (hs : r.status = 200) (hb : r.body = .json j) :
    fetch_once r rest = { attempts := 1, delays := [], outcome := .ok j } := by
  simp only [fetch_once, http_get_json, hs, hb]
  rfl

/-- C1 witness: the amended claim at the concrete 200 response. -/
theorem fetch_success_one_attempt_witness_C1 :
    fetch_once respOk [resp503] =
      { attempts := 1, delays := [], outcome := .ok okJson } :=
  fetch_success_one_attempt_C1 okJson respOk [resp503] rfl rfl

/-- C2 counterexample: with attempt budget N = 2 and transient responses on
both attempts ([503, 500]), the claim demands a terminal error after exactly
2 attempts, but the fetch operation of src/bot.py raises after 1 attempt
(and the error carries the first, not the last, response). -/
theorem fetch_exhaustion_counterexample_C2 :
    resp503.status ∈ transientStatuses ∧ resp500.status ∈ transientStatuses ∧
    (fetch_once resp503 [resp500]).attempts = 1 ∧
    ¬ ((fetch_once resp503 [resp500]).attempts = 2) := by
  refine ⟨by decide, by decide, rfl, by decide⟩

/-- C2 amended: the fetch operation never retries, so the claim holds only
for N = 1: on a transient-status first response it raises a terminal error
carrying that response (status and body) after exactly one attempt, and it
never issues a second attempt. -/
theorem fetch_transient_terminal_C2 (r : Response) (rest : List Response)
    (h : r.status ∈ transientStatuses) :
    fetch_once r rest =
      { attempts := 1, delays := [], outcome := .error (.httpStatus r) } := by
  simp only [fetch_once, http_get_json, transient_not_success r.status h]
  rfl

/-- C2 witness: the amended claim at the concrete 503 response. -/
theorem fetch_transient_terminal_witness_C2 :
    fetch_once resp503 [resp500] =
      { attempts := 1, delays := [], outcome := .error (.httpStatus resp503) } :=
  fetch_transient_terminal_C2 resp503 [resp500] (by decide)

/-- C3: a response whose status is a non-2xx code outside the transient set
makes the fetch operation raise a terminal error carrying that response
after exactly one attempt; no retry happens whatever further responses the
environment has planned. -/
theorem fetch_nontransient_terminal_C3 (r : Response) (rest : List Response)
    (hs : isSuccess r.status = false) (ht : r.status ∉ transientStatuses) :
    fetch_once r rest =
      { attempts := 1, delays := [], outcome := .error (.httpStatus r) } := by
  simp only [fetch_once, http_get_json, hs]
  rfl

/-- C3 witness: the concrete 404 response, with an arbitrary planned second
response that is never consumed. -/
theorem fetch_nontransient_terminal_witness_C3 :
    fetch_once resp404 [respOk] =
      { attempts := 1, delays := [], outcome := .error (.httpStatus resp404) } :=
  fetch_nontransient_terminal_C3 resp404 [respOk] (by decide) (by decide)

/-- C5 counterexample: with budget N = 3 and transient responses available
([503, 500, 200]), the claim (together with the retry policy it presumes)
requires a first backoff delay of 0.6 = 3/5 before retry 0, but the fetch
operation of src/bot.py sleeps no delay at all: its delay schedule is
empty. -/
theorem fetch_backoff_counterexample_C5 :
    resp503.status ∈ transientStatuses ∧
    (fetch_once resp503 [resp500, respOk]).delays = [] ∧
    ¬ ((fetch_once resp503 [resp500, respOk]).delays.head? = some ((3 : ℚ)/5)) := by
  refine ⟨by decide, rfl, by simp [fetch_once]⟩

/-- C5 amended: the fetch operation inserts no backoff delay at all — it
performs no retries, so its delay schedule is empty for every response
sequence. -/
theorem fetch_no_backoff_C5 (r : Response) (rest : List Response) :
    (fetch_once r rest).delays = [] := rfl

/-- C6: a 200 response whose body is not valid JSON makes the fetch
operation raise a decode error after exactly one attempt (terminal: no
retry, and no silent empty result is returned). -/
theorem fetch_decode_error_C6 (raw : String) (r : Response)
    (rest : List Response) (hs : r.status = 200) (hb : r.body = .raw raw) :
    fetch_once r rest =
      { attempts := 1, delays := [], outcome := .error .decodeError } := by
  simp only [fetch_once, http_get_json, hs, hb]
  rfl

/-- C6 witness: the concrete malformed-body 200 response. -/
theorem fetch_decode_error_witness_C6 :
    fetch_once respBadJson [respOk] =
      { attempts := 1, delays := [], outcome := .error .decodeError } :=
  fetch_decode_error_C6 "<html>oops</html>" respBadJson [respOk] rfl rfl

/-! ## Claims C7, C8: the shared client -/

theorem wm_search_clientAfter_some (apiKey imdb_id : String) (c : HttpClient)
    (r : Response) :
    (watchmode_search_by_imdb apiKey imdb_id (some c) r).clientAfter = some c := by
  unfold watchmode_search_by_imdb
  split <;> rfl

theorem wm_sources_clientAfter_some (apiKey region imdb_id : String)
    (c : HttpClient) (r r2 : Response) :
    (watchmode_sources_by_imdb apiKey region imdb_id (some c) r r2).clientAfter
      = some c := by
  unfold watchmode_sources_by_imdb
  split
  · rfl
  · have h1 := wm_search_clientAfter_some apiKey imdb_id c r
    cases hres : (watchmode_search_by_imdb apiKey imdb_id (some c) r).result with
    | error e => simp only [hres, h1]
    | ok wmId =>
      simp only [hres]
      split
      · simp only [h1]
        rfl
      · exact h1

theorem wm_search_reqs_timeouts (key iid : String) (s : Option HttpClient)
    (r : Response) (ht : (client s).1.timeout = 20) :
    timeoutsOk (watchmode_search_by_imdb key iid s r).reqs = true := by
  unfold watchmode_search_by_imdb
  split
  · rfl
  · simp [timeoutsOk, ht]

theorem wm_search_clientAfter_timeout (key iid : String) (s : Option HttpClient)
    (r : Response) (ht : (client s).1.timeout = 20)
    (ht2 : (client (client s).2).1.timeout = 20) :
    (client (watchmode_search_by_imdb key iid s r).clientAfter).1.timeout = 20 := by
  unfold watchmode_search_by_imdb
  split
  · exact ht
  · exact ht2

theorem wm_sources_list_reqs_timeouts (key : String) (s : Option HttpClient)
    (r : Response) (ht : (client s).1.timeout = 20) :
    timeoutsOk (watchmode_sources_list key s r).reqs = true := by
  unfold watchmode_sources_list
  split
  · rfl
  · simp [timeoutsOk, ht]

theorem wm_sources_list_clientAfter_timeout (key : String)
    (s : Option HttpClient) (r : Response) (ht : (client s).1.timeout = 20)
    (ht2 : (client (client s).2).1.timeout = 20) :
    (client (watchmode_sources_list key s r).clientAfter).1.timeout = 20 := by
  unfold watchmode_sources_list
  split
  · exact ht
  · exact ht2

theorem wm_sources_list_clientAfter_some (key : String) (c : HttpClient)
    (r : Response) :
    (watchmode_sources_list key (some c) r).clientAfter = some c := by
  unfold watchmode_sources_list
  split <;> rfl

theorem wm_titles_reqs_timeouts (key region sn : String) (lim : Nat)
    (s : Option HttpClient) (r r2 r3 : Response)
    (ht : (client s).1.timeout = 20)
    (ht2 : (client (client s).2).1.timeout = 20) :
    timeoutsOk (watchmode_titles_by_source_name key region sn lim s r r2 r3).reqs
      = true := by
  unfold watchmode_titles_by_source_name
  split
  · rfl
  · have hreq := wm_sources_list_reqs_timeouts key s r ht
    have hca := wm_sources_list_clientAfter_timeout key s r ht ht2
    have hca2 :
        (client (client (watchmode_sources_list key s r).clientAfter).2).1.timeout
          = 20 := by
      rw [client_stable]; exact hca
    cases hres : (watchmode_sources_list key s r).result with
    | error e => simp only [hres]; exact hreq
    | ok sources =>
      simp only [hres]
      cases hsid : wm_find_sid sn sources with
      | error e => simp only [hsid]; exact hreq
      | ok sid =>
        simp only [hsid]
        split
        · cases hg : http_get_json r2 with
          | ok j =>
            simp only [hg]
            simp only [timeoutsOk, List.all_append] at hreq ⊢
            simp [hreq, hca]
          | error e =>
            cases e with
            | httpStatus resp1 =>
              simp only [hg]
              simp only [timeoutsOk, List.all_append] at hreq ⊢
              simp [hreq, hca, hca2]
            | decodeError =>
              simp only [hg]
              simp only [timeoutsOk, List.all_append] at hreq ⊢
              simp [hreq, hca]
            | attributeError =>
              simp only [hg]
              simp only [timeoutsOk, List.all_append] at hreq ⊢
              simp [hreq, hca]
            | typeError =>
              simp only [hg]
              simp only [timeoutsOk, List.all_append] at hreq ⊢
              simp [hreq, hca]
        · exact hreq

theorem wm_titles_clientAfter_some (key region sn : String) (lim : Nat)
    (c : HttpClient) (r r2 r3 : Response) :
    (watchmode_titles_by_source_name key region sn lim (some c) r r2 r3).clientAfter
      = some c := by
  unfold watchmode_titles_by_source_name
  split
  · rfl
  · have h1 := wm_sources_list_clientAfter_some key c r
    cases hres : (watchmode_sources_list key (some c) r).result with
    | error e => simp only [hres, h1]
    | ok sources =>
      simp only [hres]
      cases hsid : wm_find_sid sn sources with
      | error e => simp only [hsid, h1]
      | ok sid =>
        simp only [hsid]
        split
        · cases hg : http_get_json r2 with
          | ok j => simp only [hg, h1]; rfl
          | error e =>
            cases e with
            | httpStatus resp1 => simp only [hg, h1]; rfl
            | decodeError => simp only [hg, h1]; rfl
            | attributeError => simp only [hg, h1]; rfl
            | typeError => simp only [hg, h1]; rfl
        · exact h1

/-- C7: every HTTP request issued by any of the seven fetch helpers of
src/bot.py, from any client state the process can reach, carries the
per-attempt timeout of 20 configured once on the shared client (line 86);
no helper passes a per-request override. -/
theorem fetch_timeout_C7 (s : Option HttpClient) (h : ReachableClient s)
    (a q iid tid st kd key region sn : String) (d lim : Nat)
    (r r2 r3 : Response) :
    timeoutsOk (omdb_search a q s r).reqs = true ∧
    timeoutsOk (omdb_by_id a iid s r).reqs = true ∧
    timeoutsOk (trakt_calendar tid st d kd s r).reqs = true ∧
    timeoutsOk (watchmode_search_by_imdb key iid s r).reqs = true ∧
    timeoutsOk (watchmode_sources_by_imdb key region iid s r r2).reqs = true ∧
    timeoutsOk (watchmode_sources_list key s r).reqs = true ∧
    timeoutsOk (watchmode_titles_by_source_name key region sn lim s r r2 r3).reqs
      = true := by
  have ht : (client s).1.timeout = 20 := reachable_client_timeout s h
  have ht2 : (client (client s).2).1.timeout = 20 := by
    rw [client_stable]; exact ht
  refine ⟨?_, ?_, ?_, ?_, ?_, ?_, wm_titles_reqs_timeouts key region sn lim s r r2 r3 ht ht2⟩
  · simp [omdb_search, timeoutsOk, ht]
  · simp [omdb_by_id, timeoutsOk, ht]
  · unfold trakt_calendar
    split
    · rfl
    · simp [timeoutsOk, ht]
  · unfold watchmode_search_by_imdb
    split
    · rfl
    · simp [timeoutsOk, ht]
  · unfold watchmode_sources_by_imdb
    split
    · rfl
    · have hreq := wm_search_reqs_timeouts key iid s r ht
      have hca := wm_search_clientAfter_timeout key iid s r ht ht2
      cases hres : (watchmode_search_by_imdb key iid s r).result with
      | error e =>
        simp only [hres]
        exact hreq
      | ok wmId =>
        simp only [hres]
        split
        · simp only [timeoutsOk, List.all_append] at hreq ⊢
          simp [hreq, hca]
        · exact hreq
  · unfold watchmode_sources_list
    split
    · rfl
    · simp [timeoutsOk, ht]

/-- C7 witness: the initial (None) client state with concrete arguments. -/
theorem fetch_timeout_witness_C7 :
    timeoutsOk (omdb_search "k" "q" none respOk).reqs = true ∧
    timeoutsOk (omdb_by_id "k" "tt1" none respOk).reqs = true ∧
    timeoutsOk (trakt_calendar "t" "2024-01-01" 1 "shows" none respOk).reqs = true ∧
    timeoutsOk (watchmode_search_by_imdb "w" "tt1" none respOk).reqs = true ∧
    timeoutsOk (watchmode_sources_by_imdb "w" "SA" "tt1" none respOk respOk).reqs = true ∧
    timeoutsOk (watchmode_sources_list "w" none respOk).reqs = true ∧
    timeoutsOk (watchmode_titles_by_source_name "w" "SA" "Netflix" 12 none
      respOk respOk respOk).reqs = true :=
  fetch_timeout_C7 none .init "k" "q" "tt1" "t" "2024-01-01" "shows" "w" "SA"
    "Netflix" 1 12 respOk respOk respOk

/-- C8: the shared client is created lazily on the first call to client()
(storing exactly the instance it returns, built with timeout 20), every
later call returns the stored instance and leaves it in place, and no fetch
helper replaces it: each of the seven helpers, called with an existing
client c, leaves the shared state at that same c. -/
theorem client_reuse_C8 :
    client none = ({ timeout := 20 }, some { timeout := 20 }) ∧
    (∀ c : HttpClient, client (some c) = (c, some c)) ∧
    (∀ (c : HttpClient) (a q iid tid st kd key region sn : String) (d lim : Nat)
       (r r2 r3 : Response),
      (omdb_search a q (some c) r).clientAfter = some c ∧
      (omdb_by_id a iid (some c) r).clientAfter = some c ∧
      (trakt_calendar tid st d kd (some c) r).clientAfter = some c ∧
      (watchmode_search_by_imdb key iid (some c) r).clientAfter = some c ∧
      (watchmode_sources_by_imdb key region iid (some c) r r2).clientAfter = some c ∧
      (watchmode_sources_list key (some c) r).clientAfter = some c ∧
      (watchmode_titles_by_source_name key region sn lim (some c) r r2 r3).clientAfter
        = some c) := by
  refine ⟨rfl, fun c => rfl, fun c a q iid tid st kd key region sn d lim r r2 r3 =>
    ⟨rfl, rfl, ?_, wm_search_clientAfter_some key iid c r,
     wm_sources_clientAfter_some key region iid c r r2, ?_,
     wm_titles_clientAfter_some key region sn lim c r r2 r3⟩⟩
  · unfold trakt_calendar
    split <;> rfl
  · unfold watchmode_sources_list
    split <;> rfl

/-! ## Claim C10: empty-credential guards -/

/-- C10: with an empty API credential each helper returns its empty result
(Trakt calendar [], Watchmode search None, sources and sources-list [])
while issuing no HTTP request and leaving the shared client untouched. -/
theorem empty_key_no_call_C10 (st kd iid region : String) (d : Nat)
    (cs : Option HttpClient) (r r2 : Response) :
    trakt_calendar "" st d kd cs r
      = { result := .ok (.arr []), clientAfter := cs, reqs := [] } ∧
    watchmode_search_by_imdb "" iid cs r
      = { result := .ok .null, clientAfter := cs, reqs := [] } ∧
    watchmode_sources_by_imdb "" region iid cs r r2
      = { result := .ok (.arr []), clientAfter := cs, reqs := [] } ∧
    watchmode_sources_list "" cs r
      = { result := .ok (.arr []), clientAfter := cs, reqs := [] } :=
  ⟨rfl, rfl, rfl, rfl⟩

/-! ## Claim C9: shape of watchmode_sources_by_imdb results -/

theorem dictGet_ok_dictGetD {s : Json} {k : String} {v : Json}
    (h : dictGet s k = .ok v) : dictGetD s k = v := by
  unfold dictGetD
  rw [h]

theorem sources_keep_sound (region : String) :
    ∀ (xs keep : List Json), sources_keep region xs = .ok keep →
      ∀ e ∈ keep, ∃ s ∈ xs, (dictGetD s "region").eqStr region = true ∧
        wmTypeOk (dictGetD s "type") = true ∧ e = projSource s := by
  intro xs
  induction xs with
  | nil =>
    intro keep h e he
    simp only [sources_keep] at h
    cases h
    simp at he
  | cons s rest ih =>
    intro keep h e he
    simp only [sources_keep] at h
    cases hreg : dictGet s "region" with
    | error er => simp only [hreg] at h; exact Except.noConfusion h
    | ok reg =>
      simp only [hreg] at h
      by_cases hr : reg.eqStr region = true
      · rw [if_pos hr] at h
        cases hty : dictGet s "type" with
        | error er => simp only [hty] at h; exact Except.noConfusion h
        | ok ty =>
          simp only [hty] at h
          by_cases htk : wmTypeOk ty = true
          · rw [if_pos htk] at h
            cases hrec : sources_keep region rest with
            | error er => simp only [hrec] at h; exact Except.noConfusion h
            | ok ks =>
              simp only [hrec] at h
              cases h
              rcases List.mem_cons.mp he with he1 | he2
              · exact ⟨s, List.mem_cons_self s rest,
                  by rw [dictGet_ok_dictGetD hreg]; exact hr,
                  by rw [dictGet_ok_dictGetD hty]; exact htk, he1⟩
              · rcases ih ks hrec e he2 with ⟨s2, hs2, h1, h2, h3⟩
                exact ⟨s2, List.mem_cons_of_mem s hs2, h1, h2, h3⟩
          · rw [if_neg htk] at h
            rcases ih keep h e he with ⟨s2, hs2, h1, h2, h3⟩
            exact ⟨s2, List.mem_cons_of_mem s hs2, h1, h2, h3⟩
      · rw [if_neg hr] at h
        rcases ih keep h e he with ⟨s2, hs2, h1, h2, h3⟩
        exact ⟨s2, List.mem_cons_of_mem s hs2, h1, h2, h3⟩

theorem wm_filter_sound (region : String) (j : Json) (v : Json)
    (h : wm_filter_result region j = .ok v) :
    ∃ l : List Json, v = .arr l ∧ l.length ≤ 12 ∧
      ∀ e ∈ l, ∃ xs : List Json, j = .arr xs ∧
        ∃ s ∈ xs, (dictGetD s "region").eqStr region = true ∧
          wmTypeOk (dictGetD s "type") = true ∧ e = projSource s := by
  cases j with
  | arr xs =>
    simp only [wm_filter_result] at h
    cases hk : sources_keep region xs with
    | error er => simp only [hk] at h; exact Except.noConfusion h
    | ok keep =>
      simp only [hk] at h
      cases h
      refine ⟨keep.take 12, rfl, ?_, ?_⟩
      · calc (keep.take 12).length = min 12 keep.length := List.length_take 12 keep
          _ ≤ 12 := min_le_left _ _
      · intro e he
        rcases sources_keep_sound region xs keep hk e (List.take_subset 12 keep he)
          with ⟨s, hs, h1, h2, h3⟩
        exact ⟨xs, rfl, s, hs, h1, h2, h3⟩
  | null => exact Except.noConfusion h
  | bool b => exact Except.noConfusion h
  | num n => exact Except.noConfusion h
  | str s =>
    simp only [wm_filter_result] at h
    by_cases hs : s = ""
    · rw [if_pos hs] at h
      cases h
      exact ⟨[], rfl, by simp, by simp⟩
    · rw [if_neg hs] at h
      cases h
  | obj fields =>
    cases fields with
    | nil =>
      simp only [wm_filter_result] at h
      cases h
      exact ⟨[], rfl, by simp, by simp⟩
    | cons f fs => exact Except.noConfusion h

/-- C9: whenever watchmode_sources_by_imdb returns a value (rather than
raising), that value is a list of at most 12 entries, and every entry is the
name/type/web_url projection of a source taken from the upstream sources
response whose region equals the configured region and whose type is one of
sub, free, rent, buy. -/
theorem wm_sources_shape_C9 (apiKey region imdb_id : String)
    (cs : Option HttpClient) (searchResp sourcesResp : Response) (v : Json)
    (h : (watchmode_sources_by_imdb apiKey region imdb_id cs
            searchResp sourcesResp).result = .ok v) :
    ∃ l : List Json, v = .arr l ∧ l.length ≤ 12 ∧
      ∀ e ∈ l, ∃ xs : List Json, sourcesResp.body = .json (.arr xs) ∧
        ∃ s ∈ xs, (dictGetD s "region").eqStr region = true ∧
          wmTypeOk (dictGetD s "type") = true ∧ e = projSource s := by
  unfold watchmode_sources_by_imdb at h
  by_cases hk : apiKey = ""
  · rw [if_pos hk] at h
    cases h
    exact ⟨[], rfl, by simp, by simp⟩
  · rw [if_neg hk] at h
    cases hres : (watchmode_search_by_imdb apiKey imdb_id cs searchResp).result with
    | error e =>
      simp only [hres] at h
      exact Except.noConfusion h
    | ok wmId =>
      simp only [hres] at h
      by_cases htr : pyTruthy wmId = true
      · rw [if_pos htr] at h
        cases hg : http_get_json sourcesResp with
        | error e =>
          simp only [hg] at h
          exact Except.noConfusion h
        | ok j =>
          simp only [hg] at h
          rcases wm_filter_sound region j v h with ⟨l, hv, hlen, hmem⟩
          refine ⟨l, hv, hlen, ?_⟩
          intro e he
          rcases hmem e he with ⟨xs, hxs, s, hs, h1, h2, h3⟩
          refine ⟨xs, ?_, s, hs, h1, h2, h3⟩
          rw [← hxs]
          exact http_get_json_ok_body hg
      · rw [if_neg htr] at h
        cases h
        exact ⟨[], rfl, by simp, by simp⟩


/-- C9 witness: the theorem applied to the concrete two-source response (the
SA/sub source is kept, the US one dropped). -/
theorem wm_sources_shape_witness_C9 :
    ∃ l : List Json, Json.arr [projSource wmSourceSA] = .arr l ∧ l.length ≤ 12 ∧
      ∀ e ∈ l, ∃ xs : List Json, wmSourcesResp.body = .json (.arr xs) ∧
        ∃ s ∈ xs, (dictGetD s "region").eqStr "SA" = true ∧
          wmTypeOk (dictGetD s "type") = true ∧ e = projSource s :=
  wm_sources_shape_C9 "wmkey" "SA" "tt0111161" none wmSearchResp wmSourcesResp
    (.arr [projSource wmSourceSA]) rfl
